import Mathlib

/-!
Shallow embedding of `src/main.py` (ASCII-art generator).

The program loads an image, resizes it to a target character width with an
aspect-ratio factor of 0.55, converts it to grayscale, maps each gray value
to a character of a fixed density-ordered palette (optionally reversed), and
joins the characters into newline-terminated rows of the resized width.

Modelling conventions:
* Pixels and dimensions are `Nat` (Python ints are unbounded; grayscale
  values produced by Pillow lie in 0..255).
* `Image.open` is external I/O; the orchestrator receives its outcome as an
  `Except ErroCarregamento Imagem` value.
* `Image.resize` interpolation is external to the repository; the orchestrator
  is parametrised by the resampling function, and a concrete nearest-neighbour
  resampler is provided for evaluation.  Only the output dimensions of the
  resize are computed by the repository's own code.
* Floating point: `int((nova_largura * proporcao) * 0.55)` is embedded as the
  exact rational truncation `nova_largura * altura * 11 / (largura * 20)`
  (Nat division).  `int((pixel_valor / 255) * (len - 1))` is embedded as
  `pixel_valor * (len - 1) / 255`; for every pixel value 0..255 the IEEE-754
  double computation agrees with this rational truncation (the only inputs
  whose exact value is an integer are 0, 85, 170, 255, and at each of these
  the double rounding lands exactly on the integer).
-/

/-- Line 19 of `main.py`: the default palette, densest to sparsest.
In the Python literal, `\\` denotes one backslash and `\"` one quote;
the value has 70 characters. -/
def ASCII_CHARS_PADRAO : List Char :=
  "$@B%8&WM#*oahkbdpqwmZO0QLCJUYXzcvunxrjft/\\|()1\x7b\x7d[]?-_+~<>i!lI;:,\"^`'. ".toList

/-- An RGB pixel as produced by the image decoder. -/
structure Rgb where
  r : Nat
  g : Nat
  b : Nat
deriving Repr, DecidableEq

/-- A decoded colour image: dimensions and a row-major pixel buffer. -/
structure Imagem where
  largura : Nat
  altura : Nat
  pixels : List Rgb
deriving Repr, DecidableEq

/-- A grayscale image (`convert("L")` result): one 0..255 value per pixel. -/
structure ImagemCinza where
  largura : Nat
  altura : Nat
  pixels : List Nat
deriving Repr

/-- Line 27 of `main.py`:
`nova_altura = int((nova_largura * proporcao) * 0.55)` with
`proporcao = altura_original / largura_original`, embedded as exact rational
truncation (0.55 = 11/20). -/
def nova_altura_calculada (largura_original altura_original nova_largura : Nat) : Nat :=
  nova_largura * altura_original * 11 / (largura_original * 20)

/-- The image `imagem.resize((nova_largura, nova_altura))` returns when it
does not raise (both target dimensions ≥ 1).  The interpolated pixel
contents come from the external resampler `resample`. -/
def imagem_redimensionada (resample : Imagem → Nat → Nat → List Rgb)
    (imagem : Imagem) (nova_largura : Nat) : Imagem :=
  let nova_altura := nova_altura_calculada imagem.largura imagem.altura nova_largura
  ⟨nova_largura, nova_altura, resample imagem nova_largura nova_altura⟩

/-- Lines 21-30 of `main.py` (`redimensionar_imagem`): resizes to the target
width and the aspect-corrected height.  Pillow's `resize` raises
`ValueError("height and width must be > 0")` whenever a target dimension is
less than 1, so a zero width or a truncated-to-zero height is an error, not
an image. -/
def redimensionar_imagem (resample : Imagem → Nat → Nat → List Rgb)
    (imagem : Imagem) (nova_largura : Nat) : Except String Imagem :=
  if nova_largura = 0
      ∨ nova_altura_calculada imagem.largura imagem.altura nova_largura = 0 then
    Except.error "height and width must be > 0"
  else
    Except.ok (imagem_redimensionada resample imagem nova_largura)

/-- Pillow's RGB→L conversion (used by `imagem.convert("L")`, line 34):
`(19595 r + 38470 g + 7471 b) >> 16`.  On 0..255 inputs the result is 0..255;
pure white maps to 255 and pure black to 0. -/
def luminancia (p : Rgb) : Nat :=
  (19595 * p.r + 38470 * p.g + 7471 * p.b) / 65536

/-- Lines 32-34 of `main.py` (`converter_para_escala_de_cinza`). -/
def converter_para_escala_de_cinza (imagem : Imagem) : ImagemCinza :=
  ⟨imagem.largura, imagem.altura, imagem.pixels.map luminancia⟩

/-- Line 45 of `main.py`:
`indice = int((pixel_valor / 255) * (len(caracteres_ascii) - 1))`,
embedded as exact rational truncation (see the header note on floats).
`n` is the length of the selected palette. -/
def indice_na_paleta (n pixel_valor : Nat) : Nat :=
  pixel_valor * (n - 1) / 255

/-- Lines 36-48 of `main.py` (`mapear_pixels_para_ascii`): selects the forward
or reversed palette, and maps each pixel to the palette character at its
computed index, in buffer order.  The Python `"".join` is applied by the
orchestrator; here the result stays a character list. -/
def mapear_pixels_para_ascii (pixels : List Nat) (invertido : Bool) : List Char :=
  let caracteres_ascii := if invertido then ASCII_CHARS_PADRAO.reverse else ASCII_CHARS_PADRAO
  pixels.map (fun pixel_valor =>
    caracteres_ascii.getD (indice_na_paleta caracteres_ascii.length pixel_valor) ' ')

/-- Helper for the slicing loop: structural recursion on a fuel bound.
With positive `largura`, fuel `s.length` is always enough. -/
def dividir_aux : Nat → List Char → Nat → List (List Char)
  | 0, _, _ => []
  | _, [], _ => []
  | fuel + 1, s, largura => s.take largura :: dividir_aux fuel (s.drop largura) largura

/-- Lines 73-74 of `main.py`: `for i in range(0, len(string_ascii), largura)`
slices the flat string into consecutive chunks of the resized width.
A zero `largura` never reaches this loop in the program (`resize` raises
first); the guard below only totalises the definition. -/
def dividir_em_linhas (s : List Char) (largura : Nat) : List (List Char) :=
  if largura = 0 then [] else dividir_aux s.length s largura

/-- Line 74 of `main.py`: each chunk gets a trailing `"\n"` and the chunks are
concatenated into the final text block. -/
def juntar_linhas (linhas : List (List Char)) : String :=
  String.mk (linhas.flatMap (fun linha => linha ++ ['\n']))

/-- Outcome of `Image.open(caminho_imagem)` when it fails (lines 54-59). -/
inductive ErroCarregamento where
  | arquivo_nao_encontrado (caminho : String)
  | outro (mensagem : String)
deriving Repr, DecidableEq

/-- The user-facing messages printed on load failure (lines 55 and 58). -/
def mensagem_de_erro : ErroCarregamento → String
  | .arquivo_nao_encontrado caminho =>
      "Erro: O arquivo '" ++ caminho ++ "' não foi encontrado."
  | .outro mensagem => "Erro ao abrir a imagem: " ++ mensagem

/-- Observable outcome of one `gerar_arte_ascii` invocation. -/
inductive Saida where
  | erro (mensagem : String)
  | excecao (mensagem : String)
  | arte (texto : String)
deriving Repr, DecidableEq

/-- Lines 61-74 of `main.py` on the path where `resize` returned an image:
grayscale, map, slice into rows of the resized width. -/
def linhas_da_arte (resample : Imagem → Nat → Nat → List Rgb)
    (imagem : Imagem) (largura : Nat) (invertido : Bool) : List (List Char) :=
  let ir := imagem_redimensionada resample imagem largura
  let imagem_cinza := converter_para_escala_de_cinza ir
  let string_ascii := mapear_pixels_para_ascii imagem_cinza.pixels invertido
  dividir_em_linhas string_ascii ir.largura

/-- Lines 50-76 of `main.py` (`gerar_arte_ascii`): on a load failure, prints
the error message and returns (lines 52-59); otherwise resizes, and on
success prints the joined art text.  Only `Image.open` is inside the
`try`/`except`, so when `resize` raises (a zero target width, or a height
truncated to 0) the `ValueError` propagates uncaught, modelled by
`Saida.excecao`. -/
def gerar_arte_ascii (resample : Imagem → Nat → Nat → List Rgb)
    (resultado_open : Except ErroCarregamento Imagem)
    (largura : Nat) (invertido : Bool) : Saida :=
  match resultado_open with
  | .error e => Saida.erro (mensagem_de_erro e)
  | .ok imagem =>
      match redimensionar_imagem resample imagem largura with
      | .error mensagem => Saida.excecao mensagem
      | .ok _ => Saida.arte (juntar_linhas (linhas_da_arte resample imagem largura invertido))

/-- Line 76 of `main.py`: `print(arte_ascii_final)` appends one final newline
to what the function hands it; an error message is likewise printed with a
newline; an uncaught exception prints nothing on stdout. -/
def saida_impressa : Saida → String
  | .erro mensagem => mensagem ++ "\n"
  | .excecao _ => ""
  | .arte texto => texto ++ "\n"

/-- A concrete resampler for evaluating the pipeline: nearest-neighbour,
one of the interpolations the specification allows for the external resize. -/
def vizinho_mais_proximo (imagem : Imagem) (w h : Nat) : List Rgb :=
  (List.range h).flatMap (fun y =>
    (List.range w).map (fun x =>
      imagem.pixels.getD ((y * imagem.altura / h) * imagem.largura
        + x * imagem.largura / w) ⟨0, 0, 0⟩))

/-- A 1×1 pure-white image. -/
def branca1x1 : Imagem := ⟨1, 1, [⟨255, 255, 255⟩]⟩

/-- A 2×2 pure-white image. -/
def branca2x2 : Imagem := ⟨2, 2, [⟨255, 255, 255⟩, ⟨255, 255, 255⟩, ⟨255, 255, 255⟩, ⟨255, 255, 255⟩]⟩

/-- Modelled from the spec: the `round` function the specification uses for
the resized height (`round(target_width * original_height / original_width
* 0.55)`), on exact rationals, rounding half up. -/
def altura_arredondada_spec (largura_original altura_original nova_largura : Nat) : ℤ :=
  ⌊(nova_largura * altura_original : ℚ) / largura_original * (55 / 100) + 1 / 2⌋

/-! ### Shared helper lemmas -/

lemma paleta_comprimento : ASCII_CHARS_PADRAO.length = 70 := by decide

lemma indice_lt (n v : Nat) (hn : 0 < n) (hv : v ≤ 255) :
    indice_na_paleta n v < n := by
  unfold indice_na_paleta
  have h1 : v * (n - 1) ≤ 255 * (n - 1) := Nat.mul_le_mul_right _ hv
  have h2 : v * (n - 1) / 255 ≤ 255 * (n - 1) / 255 := Nat.div_le_div_right h1
  have h3 : 255 * (n - 1) / 255 = n - 1 := Nat.mul_div_cancel_left _ (by norm_num)
  omega

lemma indice_mono (n v1 v2 : Nat) (h12 : v1 ≤ v2) :
    indice_na_paleta n v1 ≤ indice_na_paleta n v2 :=
  Nat.div_le_div_right (Nat.mul_le_mul_right _ h12)

lemma mapear_comprimento (pixels : List Nat) (invertido : Bool) :
    (mapear_pixels_para_ascii pixels invertido).length = pixels.length := by
  unfold mapear_pixels_para_ascii
  simp

lemma mapear_getD (pixels : List Nat) (invertido : Bool) (i : Nat)
    (hi : i < pixels.length) :
    (mapear_pixels_para_ascii pixels invertido).getD i ' ' =
      (if invertido then ASCII_CHARS_PADRAO.reverse else ASCII_CHARS_PADRAO).getD
        (indice_na_paleta
          (if invertido then ASCII_CHARS_PADRAO.reverse else ASCII_CHARS_PADRAO).length
          (pixels.getD i 0)) ' ' := by
  unfold mapear_pixels_para_ascii
  have hi2 : i < (pixels.map (fun pixel_valor =>
      (if invertido then ASCII_CHARS_PADRAO.reverse else ASCII_CHARS_PADRAO).getD
        (indice_na_paleta
          (if invertido then ASCII_CHARS_PADRAO.reverse else ASCII_CHARS_PADRAO).length
          pixel_valor) ' ')).length := by simpa using hi
  rw [List.getD_eq_getElem _ ' ' hi2, List.getElem_map, List.getD_eq_getElem _ 0 hi]

lemma reverse_getD (l : List Char) (i : Nat) (h : i < l.length) :
    l.reverse.getD i ' ' = l.getD (l.length - 1 - i) ' ' := by
  have h2 : i < l.reverse.length := by simpa using h
  have h3 : l.length - 1 - i < l.length := by omega
  rw [List.getD_eq_getElem l.reverse ' ' h2, List.getElem_reverse,
    List.getD_eq_getElem l ' ' h3]

lemma dividir_aux_spec (largura : Nat) (hl : 0 < largura) :
    ∀ (fuel : Nat) (s : List Char) (n : Nat),
      s.length = largura * n → s.length ≤ fuel →
      (dividir_aux fuel s largura).length = n ∧
      ∀ linha ∈ dividir_aux fuel s largura, linha.length = largura := by
  intro fuel
  induction fuel with
  | zero =>
      intro s n hlen hfuel
      have hs : s.length = 0 := Nat.le_zero.mp hfuel
      have h0 : largura * n = 0 := by omega
      have hn : n = 0 := by
        rcases Nat.mul_eq_zero.mp h0 with h | h
        · omega
        · exact h
      cases s with
      | nil => simp [dividir_aux, hn]
      | cons c cs => simp at hs
  | succ fuel ih =>
      intro s n hlen hfuel
      cases s with
      | nil =>
          have h0 : largura * n = 0 := by simpa using hlen.symm
          have hn : n = 0 := by
            rcases Nat.mul_eq_zero.mp h0 with h | h
            · omega
            · exact h
          simp [dividir_aux, hn]
      | cons c cs =>
          have hpos : 0 < (c :: cs).length := by simp
          have hn : 0 < n := by
            rcases Nat.eq_zero_or_pos n with h | h
            · rw [h, Nat.mul_zero] at hlen; omega
            · exact h
          obtain ⟨m, rfl⟩ : ∃ m, n = m + 1 := ⟨n - 1, by omega⟩
          have hge : largura ≤ (c :: cs).length := by
            rw [hlen]; calc largura = largura * 1 := by ring
            _ ≤ largura * (m + 1) := Nat.mul_le_mul_left _ (by omega)
          have hdrop : ((c :: cs).drop largura).length = largura * m := by
            simp only [List.length_drop]
            rw [hlen]; ring_nf; omega
          have hdropfuel : ((c :: cs).drop largura).length ≤ fuel := by
            simp only [List.length_drop]
            omega
          obtain ⟨ihlen, ihall⟩ := ih ((c :: cs).drop largura) m hdrop hdropfuel
          constructor
          · simp only [dividir_aux, List.length_cons, ihlen]
          · intro linha hmem
            simp only [dividir_aux, List.mem_cons] at hmem
            rcases hmem with h | h
            · rw [h]
              simp only [List.length_take]
              omega
            · exact ihall linha h

lemma dividir_em_linhas_spec (s : List Char) (largura n : Nat)
    (hl : 0 < largura) (hlen : s.length = largura * n) :
    (dividir_em_linhas s largura).length = n ∧
    ∀ linha ∈ dividir_em_linhas s largura, linha.length = largura := by
  unfold dividir_em_linhas
  rw [if_neg (Nat.pos_iff_ne_zero.mp hl)]
  exact dividir_aux_spec largura hl s.length s n hlen (Nat.le_refl _)

/-! ### Claim theorems -/

/-- C1, counterexample: the code truncates the resized height (`int(...)`,
line 27) where the claim demands rounding.  For a 1×1 image at width 3 the
exact value is 3·(1/1)·0.55 = 1.65: the pipeline emits 1 output line while
`round` would give 2. -/
theorem c1_contraexemplo_arredondamento :
    (linhas_da_arte vizinho_mais_proximo branca1x1 3 false).length = 1 ∧
    altura_arredondada_spec 1 1 3 = 2 ∧ (1 : Nat) ≠ 2 := by
  refine ⟨by decide, ?_, by decide⟩
  unfold altura_arredondada_spec
  norm_num

/-- C1, amended (truncated height instead of rounded height): for every
image, target width `w > 0` and resampler filling the resized buffer, the
number of output lines equals `int(w * h_orig/w_orig * 0.55)` (truncation,
as computed by `nova_altura_calculada`) and every output line has exactly
`w` characters. -/
theorem c1_dimensoes_da_arte (resample : Imagem → Nat → Nat → List Rgb)
    (imagem : Imagem) (largura : Nat) (invertido : Bool)
    (hw : 0 < largura)
    (hlen : (resample imagem largura
        (nova_altura_calculada imagem.largura imagem.altura largura)).length
      = largura * nova_altura_calculada imagem.largura imagem.altura largura) :
    (linhas_da_arte resample imagem largura invertido).length
      = nova_altura_calculada imagem.largura imagem.altura largura ∧
    ∀ linha ∈ linhas_da_arte resample imagem largura invertido,
      linha.length = largura := by
  have hstring : (mapear_pixels_para_ascii
      ((resample imagem largura
        (nova_altura_calculada imagem.largura imagem.altura largura)).map luminancia)
      invertido).length
      = largura * nova_altura_calculada imagem.largura imagem.altura largura := by
    rw [mapear_comprimento, List.length_map, hlen]
  have h := dividir_em_linhas_spec
    (mapear_pixels_para_ascii
      ((resample imagem largura
        (nova_altura_calculada imagem.largura imagem.altura largura)).map luminancia)
      invertido)
    largura (nova_altura_calculada imagem.largura imagem.altura largura) hw hstring
  simpa [linhas_da_arte, imagem_redimensionada, converter_para_escala_de_cinza] using h

/-- Witness for `c1_dimensoes_da_arte`: the 2×2 white image at width 2 with
the nearest-neighbour resampler. -/
theorem c1_dimensoes_da_arte_testemunha :
    (linhas_da_arte vizinho_mais_proximo branca2x2 2 false).length
      = nova_altura_calculada 2 2 2 ∧
    ∀ linha ∈ linhas_da_arte vizinho_mais_proximo branca2x2 2 false,
      linha.length = 2 :=
  c1_dimensoes_da_arte vizinho_mais_proximo branca2x2 2 false (by decide) (by decide)

/-- C2, counterexample: the palette literal on line 19 has 70 characters,
not 69 as the claim states. -/
theorem c2_contraexemplo_comprimento :
    ASCII_CHARS_PADRAO.length = 70 ∧ ASCII_CHARS_PADRAO.length ≠ 69 := by
  decide

/-- C2, amended (palette length 70, indices in [0, 69]): the palette is
non-empty with fixed length 70, and for every luminance value `v ≤ 255` the
index computed by the mapper is in bounds for both the forward and the
reversed palette. -/
theorem c2_indice_dentro_da_paleta (v : Nat) (hv : v ≤ 255) :
    ASCII_CHARS_PADRAO.length = 70 ∧
    indice_na_paleta ASCII_CHARS_PADRAO.length v < ASCII_CHARS_PADRAO.length ∧
    indice_na_paleta ASCII_CHARS_PADRAO.reverse.length v
      < ASCII_CHARS_PADRAO.reverse.length := by
  refine ⟨paleta_comprimento, ?_, ?_⟩
  · exact indice_lt _ v (by rw [paleta_comprimento]; norm_num) hv
  · exact indice_lt _ v (by simp [paleta_comprimento]) hv

/-- Witness for `c2_indice_dentro_da_paleta` at the extreme value 255. -/
theorem c2_indice_dentro_da_paleta_testemunha :
    ASCII_CHARS_PADRAO.length = 70 ∧
    indice_na_paleta ASCII_CHARS_PADRAO.length 255 < ASCII_CHARS_PADRAO.length ∧
    indice_na_paleta ASCII_CHARS_PADRAO.reverse.length 255
      < ASCII_CHARS_PADRAO.reverse.length :=
  c2_indice_dentro_da_paleta 255 (by decide)

/-- C3, counterexample: the claim computes the index with N = 69, but the
palette has 70 characters.  At luminance 255 the claim's formula picks
index `int(255/255 * 68) = 68`, the character `.`, while the code emits
the character at index 69, the space. -/
theorem c3_contraexemplo_indice :
    mapear_pixels_para_ascii [255] false = [' '] ∧
    ASCII_CHARS_PADRAO.getD (indice_na_paleta 69 255) ' ' = '.' ∧
    ('.' : Char) ≠ ' ' := by
  decide

/-- C3, amended (N = 70): the mapper emits exactly one character per pixel
in buffer order, and the character at each position is the selected palette
(forward when the flag is false, reversed when it is true) looked up at
`int(v/255 * (N-1))` with N = 70 the palette length. -/
theorem c3_mapeamento_por_pixel (pixels : List Nat) (invertido : Bool) :
    (mapear_pixels_para_ascii pixels invertido).length = pixels.length ∧
    ∀ i, i < pixels.length →
      (mapear_pixels_para_ascii pixels invertido).getD i ' ' =
        (if invertido then ASCII_CHARS_PADRAO.reverse else ASCII_CHARS_PADRAO).getD
          (indice_na_paleta 70 (pixels.getD i 0)) ' ' := by
  refine ⟨mapear_comprimento pixels invertido, ?_⟩
  intro i hi
  rw [mapear_getD pixels invertido i hi]
  cases invertido <;> simp [paleta_comprimento]

/-- Witness for `c3_mapeamento_por_pixel`: pixel list `[0, 255]` with the
reversed palette, position 1. -/
theorem c3_mapeamento_por_pixel_testemunha :
    (mapear_pixels_para_ascii [0, 255] true).getD 1 ' ' =
      (if true then ASCII_CHARS_PADRAO.reverse else ASCII_CHARS_PADRAO).getD
        (indice_na_paleta 70 ([0, 255].getD 1 0)) ' ' :=
  (c3_mapeamento_por_pixel [0, 255] true).2 1 (by decide)

/-- C6, confirmed: at every position, where the non-inverted output shows
`palette[i]`, the inverted output of the same pixels shows
`palette[(N-1) - i]` — the element-wise palette-reverse. -/
theorem c6_saida_invertida (pixels : List Nat)
    (hpx : ∀ v ∈ pixels, v ≤ 255) (k : Nat) (hk : k < pixels.length) :
    ∃ i, i < ASCII_CHARS_PADRAO.length ∧
      (mapear_pixels_para_ascii pixels false).getD k ' '
        = ASCII_CHARS_PADRAO.getD i ' ' ∧
      (mapear_pixels_para_ascii pixels true).getD k ' '
        = ASCII_CHARS_PADRAO.getD (ASCII_CHARS_PADRAO.length - 1 - i) ' ' := by
  have hv : pixels.getD k 0 ≤ 255 := by
    rw [List.getD_eq_getElem pixels 0 hk]
    exact hpx _ (List.getElem_mem hk)
  have hlt : indice_na_paleta ASCII_CHARS_PADRAO.length (pixels.getD k 0)
      < ASCII_CHARS_PADRAO.length :=
    indice_lt _ _ (by rw [paleta_comprimento]; norm_num) hv
  refine ⟨indice_na_paleta ASCII_CHARS_PADRAO.length (pixels.getD k 0), hlt, ?_, ?_⟩
  · rw [mapear_getD pixels false k hk]
    simp
  · rw [mapear_getD pixels true k hk]
    simp only [if_pos rfl, List.length_reverse]
    exact reverse_getD ASCII_CHARS_PADRAO _ hlt

/-- Witness for `c6_saida_invertida`: the single-pixel list `[128]`
at position 0. -/
theorem c6_saida_invertida_testemunha :
    ∃ i, i < ASCII_CHARS_PADRAO.length ∧
      (mapear_pixels_para_ascii [128] false).getD 0 ' '
        = ASCII_CHARS_PADRAO.getD i ' ' ∧
      (mapear_pixels_para_ascii [128] true).getD 0 ' '
        = ASCII_CHARS_PADRAO.getD (ASCII_CHARS_PADRAO.length - 1 - i) ' ' :=
  c6_saida_invertida [128] (by decide) 0 (by decide)

/-- C7, confirmed: the palette index is monotone in the luminance; with the
inverted flag, the position `(N-1) - index` that the emitted character holds
in the original density-ordered palette is non-increasing. -/
theorem c7_monotonia_do_indice (v1 v2 : Nat) (h12 : v1 ≤ v2) :
    indice_na_paleta ASCII_CHARS_PADRAO.length v1
      ≤ indice_na_paleta ASCII_CHARS_PADRAO.length v2 ∧
    ASCII_CHARS_PADRAO.length - 1 - indice_na_paleta ASCII_CHARS_PADRAO.length v2
      ≤ ASCII_CHARS_PADRAO.length - 1
        - indice_na_paleta ASCII_CHARS_PADRAO.length v1 :=
  ⟨indice_mono _ v1 v2 h12, Nat.sub_le_sub_left (indice_mono _ v1 v2 h12) _⟩

/-- Witness for `c7_monotonia_do_indice` at luminances 10 and 200. -/
theorem c7_monotonia_do_indice_testemunha :
    indice_na_paleta ASCII_CHARS_PADRAO.length 10
      ≤ indice_na_paleta ASCII_CHARS_PADRAO.length 200 ∧
    ASCII_CHARS_PADRAO.length - 1 - indice_na_paleta ASCII_CHARS_PADRAO.length 200
      ≤ ASCII_CHARS_PADRAO.length - 1
        - indice_na_paleta ASCII_CHARS_PADRAO.length 10 :=
  c7_monotonia_do_indice 10 200 (by decide)

/-- C8, confirmed: with the forward palette, an all-black pixel buffer maps
every position to `palette[0]` and an all-white buffer maps every position
to `palette[N-1]`. -/
theorem c8_extremos_preto_e_branco (pixels : List Nat) :
    ((∀ v ∈ pixels, v = 0) →
      mapear_pixels_para_ascii pixels false
        = List.replicate pixels.length (ASCII_CHARS_PADRAO.getD 0 ' ')) ∧
    ((∀ v ∈ pixels, v = 255) →
      mapear_pixels_para_ascii pixels false
        = List.replicate pixels.length
            (ASCII_CHARS_PADRAO.getD (ASCII_CHARS_PADRAO.length - 1) ' ')) := by
  constructor
  · intro hall
    rw [← mapear_comprimento pixels false]
    refine List.eq_replicate_length.mpr ?_
    intro b hb
    simp only [mapear_pixels_para_ascii, if_neg Bool.false_ne_true,
      List.mem_map] at hb
    obtain ⟨v, hv, rfl⟩ := hb
    rw [hall v hv]
    rfl
  · intro hall
    rw [← mapear_comprimento pixels false]
    refine List.eq_replicate_length.mpr ?_
    intro b hb
    simp only [mapear_pixels_para_ascii, if_neg Bool.false_ne_true,
      List.mem_map] at hb
    obtain ⟨v, hv, rfl⟩ := hb
    rw [hall v hv]
    decide

/-- Witness for `c8_extremos_preto_e_branco`: the all-black buffer `[0, 0]`
and the all-white buffer `[255]`. -/
theorem c8_extremos_preto_e_branco_testemunha :
    mapear_pixels_para_ascii [0, 0] false
      = List.replicate ([0, 0] : List Nat).length (ASCII_CHARS_PADRAO.getD 0 ' ') ∧
    mapear_pixels_para_ascii [255] false
      = List.replicate ([255] : List Nat).length
          (ASCII_CHARS_PADRAO.getD (ASCII_CHARS_PADRAO.length - 1) ' ') :=
  ⟨(c8_extremos_preto_e_branco [0, 0]).1 (by decide),
   (c8_extremos_preto_e_branco [255]).2 (by decide)⟩

/-- C4, counterexample: at target width 0 no validation error is produced
and the pipeline is invoked.  The resize is attempted with the degenerate
width and it is Pillow's `resize` that rejects it, raising the uncaught
`ValueError("height and width must be > 0")` — not a validation step before
the resize. -/
theorem c4_contraexemplo_largura_zero :
    gerar_arte_ascii vizinho_mais_proximo (.ok branca2x2) 0 false
      = Saida.excecao "height and width must be > 0" ∧
    (∀ mensagem, gerar_arte_ascii vizinho_mais_proximo (.ok branca2x2) 0 false
      ≠ Saida.erro mensagem) ∧
    redimensionar_imagem vizinho_mais_proximo branca2x2 0
      = Except.error "height and width must be > 0" := by
  have he : gerar_arte_ascii vizinho_mais_proximo (.ok branca2x2) 0 false
      = Saida.excecao "height and width must be > 0" := rfl
  refine ⟨he, ?_, rfl⟩
  intro mensagem h
  rw [he] at h
  exact Saida.noConfusion h

/-- C4, amended (no validation exists): for every loaded image, resampler and
flag, the orchestrator at target width 0 performs no width validation — the
pipeline is invoked, the resize is attempted with the degenerate width, and
the run ends in the uncaught `ValueError("height and width must be > 0")`
that Pillow's `resize` raises, rather than in any validation error. -/
theorem c4_largura_zero_nao_rejeitada (resample : Imagem → Nat → Nat → List Rgb)
    (imagem : Imagem) (invertido : Bool) :
    gerar_arte_ascii resample (.ok imagem) 0 invertido
      = Saida.excecao "height and width must be > 0" ∧
    (∀ mensagem, gerar_arte_ascii resample (.ok imagem) 0 invertido
      ≠ Saida.erro mensagem) ∧
    redimensionar_imagem resample imagem 0
      = Except.error "height and width must be > 0" := by
  have hred : redimensionar_imagem resample imagem 0
      = Except.error "height and width must be > 0" := by
    unfold redimensionar_imagem
    simp
  have hok : gerar_arte_ascii resample (.ok imagem) 0 invertido
      = Saida.excecao "height and width must be > 0" := by
    show (match redimensionar_imagem resample imagem 0 with
      | Except.error mensagem => Saida.excecao mensagem
      | Except.ok _ =>
          Saida.arte (juntar_linhas (linhas_da_arte resample imagem 0 invertido)))
      = Saida.excecao "height and width must be > 0"
    rw [hred]
  refine ⟨hok, ?_, hred⟩
  intro mensagem h
  rw [hok] at h
  exact Saida.noConfusion h

/-- C5, confirmed: on a load failure the orchestrator prints the user-facing
message identifying the failure and returns (no exception propagates), and
no art — not even partial art — is produced. -/
theorem c5_falha_de_carregamento (resample : Imagem → Nat → Nat → List Rgb)
    (e : ErroCarregamento) (largura : Nat) (invertido : Bool) :
    gerar_arte_ascii resample (.error e) largura invertido
      = Saida.erro (mensagem_de_erro e) ∧
    saida_impressa (gerar_arte_ascii resample (.error e) largura invertido)
      = mensagem_de_erro e ++ "\n" ∧
    (∀ texto, gerar_arte_ascii resample (.error e) largura invertido
      ≠ Saida.arte texto) ∧
    (∀ mensagem, gerar_arte_ascii resample (.error e) largura invertido
      ≠ Saida.excecao mensagem) := by
  refine ⟨rfl, rfl, ?_, ?_⟩
  · intro texto h
    simp [gerar_arte_ascii] at h
  · intro mensagem h
    simp [gerar_arte_ascii] at h

/-- C9, confirmed: for the 2×2 pure-white image at width 2 the resized
height is `int(2 * (2/2) * 0.55) = 1`, the art is one line of two spaces
(the last palette character) followed by its newline, and `print` appends
the final newline, so stdout shows the art followed by a blank line. -/
theorem c9_exemplo_branco_2x2 :
    nova_altura_calculada 2 2 2 = 1 ∧
    gerar_arte_ascii vizinho_mais_proximo (.ok branca2x2) 2 false
      = Saida.arte "  \n" ∧
    saida_impressa (gerar_arte_ascii vizinho_mais_proximo (.ok branca2x2) 2 false)
      = "  \n\n" ∧
    ASCII_CHARS_PADRAO.getD (ASCII_CHARS_PADRAO.length - 1) ' ' = ' ' := by
  exact ⟨rfl, rfl, rfl, rfl⟩

/-- C10, confirmed: for the valid 1×1 image at positive width 1 the computed
height `int(1 * (1/1) * 0.55)` is 0 and the resize is attempted with the
degenerate size (1, 0) without any prior guard — Pillow rejects it there
with the uncaught `ValueError("height and width must be > 0")`, so the run
crashes and no art at all is produced: the public interface does not
guarantee a non-empty art output for every valid image and positive width. -/
theorem c10_altura_degenerada_zero :
    nova_altura_calculada 1 1 1 = 0 ∧
    redimensionar_imagem vizinho_mais_proximo branca1x1 1
      = Except.error "height and width must be > 0" ∧
    gerar_arte_ascii vizinho_mais_proximo (.ok branca1x1) 1 false
      = Saida.excecao "height and width must be > 0" ∧
    (∀ texto, gerar_arte_ascii vizinho_mais_proximo (.ok branca1x1) 1 false
      ≠ Saida.arte texto) := by
  have he : gerar_arte_ascii vizinho_mais_proximo (.ok branca1x1) 1 false
      = Saida.excecao "height and width must be > 0" := rfl
  refine ⟨rfl, rfl, he, ?_⟩
  intro texto h
  rw [he] at h
  exact Saida.noConfusion h
